import Mathlib

/-!
Verification development for the `configmaker` tool
(`src/configmaker/configmaker.py`).

The Python program is shallowly embedded: every function that the claims
touch is translated into an executable Lean definition.  Python strings are
Lean `String`s, but all string operations are re-implemented by structural
recursion over the underlying `List Char` so that every definition reduces
inside the kernel (Lean's built-in `String.splitOn`, `String.toLower`,
`String.le`, ... are defined by well-founded recursion and do not reduce).

Conventions used throughout:
* fallible Python code (raise) becomes `Except Err _`; each `Err`
  constructor corresponds to one `raise` site of the source (the concrete
  message is recorded in a comment next to the constructor);
* a Python `dict` becomes an insertion-ordered association list with
  overwrite-on-collision (`dictSet` / `dictFind`);
* a Python `set` becomes a duplicate-free list; building a set
  incrementally is modelled by `setAdd` (membership test, append if
  absent).  Python does not specify a set's iteration order; the model
  realizes it as first-insertion order.  No claim depends on the order,
  only on which elements the set contains;
* the filesystem content that the program reads (directory listings,
  sample-sheet lines, `Stats.json`, workbook sheets, fastq file trees) is
  passed in explicitly as data.
-/

/-- Error values; each constructor models one concrete `raise` site (or
runtime failure point) of `configmaker.py`. -/
inductive Err where
  /-- Python `NameError`: the given identifier is referenced but not bound
  in any enclosing scope. -/
  | nameError (ident : String)
  /-- Python `ValueError` from unpacking `key, val = ...` when the list
  does not have exactly two elements (line 109). -/
  | unpackError
  /-- Python `IndexError` from `split('_')[1]` on a basename with fewer
  than two underscore-separated segments (line 249). -/
  | indexError
  /-- `argparse.ArgumentTypeError` from `is_valid_gcf_id` (line 50):
  "... is not a valid GCF number (format: GCF-YYYY-NNN)". -/
  | invalidGcfId (arg : String)
  /-- `ValueError` (line 59): "... is not present in run_folder: ...". -/
  | projectNotPresent (pid pth : String)
  /-- `ValueError` (line 66): "runfolders contain more than one project
  folders. Use `--project-id` option to choose one." -/
  | multipleProjectFolders
  /-- `ValueError` (line 71): "failed to identify any valid projects in
  runfolder: ...". -/
  | noValidProject (pth : String)
  /-- `RuntimeError` (line 91): "Cannot find SampleSheet.csv in ...". -/
  | noSampleSheet
  /-- `ValueError` (line 139): "runfolders contain more than one GCF
  project ID. Use `--project-id` option to choose one." -/
  | multipleProjectIds
  /-- `ValueError` raised by `pd.concat([])` on an empty list of frames
  (line 124 when no sheet was parsed). -/
  | noObjectsToConcatenate
  /-- `ValueError` (line 243): "Read geometry mismatch between runfolders.
  Check Stats.json!". -/
  | readGeometryMismatch
  /-- `ValueError` (line 305): "`--sample-submission-form` option is
  required with multiple runfolders." -/
  | ssubRequired
  deriving Repr, DecidableEq

/-! ## Re-implemented string primitives (kernel-reducible) -/

/-- Split a character list at every occurrence of the separator character;
the result always has at least one (possibly empty) part.  Models Python
`str.split(sep)` for a one-character separator. -/
def splitChar (sep : Char) : List Char → List (List Char)
  | [] => [[]]
  | c :: cs =>
    match splitChar sep cs with
    | [] => [[]]
    | h :: t => if c == sep then [] :: h :: t else (c :: h) :: t

/-- Python `s.split(sep)` for a one-character separator, on `String`. -/
def pySplit (sep : Char) (s : String) : List String :=
  (splitChar sep s.data).map String.mk

/-- Python `sep.join(parts)`. -/
def joinSep (sep : String) : List String → String
  | [] => ""
  | [x] => x
  | x :: y :: t => x ++ sep ++ joinSep sep (y :: t)

/-- Python `s.startswith(pre)`. -/
def beginsWith (pre s : String) : Bool := pre.data.isPrefixOf s.data

/-- Whitespace characters removed by Python `str.strip` / `str.rstrip`
(the ASCII ones; the inputs at hand contain no exotic whitespace). -/
def pyWhitespace (c : Char) : Bool :=
  c == ' ' || c == '\t' || c == '\n' || c == '\r' || c == '\x0b' || c == '\x0c'

/-- Python `str.rstrip()`. -/
def pyRstrip (s : String) : String :=
  String.mk ((s.data.reverse.dropWhile pyWhitespace).reverse)

/-- Python `str.strip()`. -/
def pyStrip (s : String) : String :=
  String.mk (((s.data.dropWhile pyWhitespace).reverse.dropWhile pyWhitespace).reverse)

/-- ASCII lower-casing of one character (Python `str.lower` on the ASCII
input alphabet used by the program). -/
def lowerChar (c : Char) : Char :=
  if 'A' ≤ c && c ≤ 'Z' then Char.ofNat (c.toNat + 32) else c

/-- Python `str.lower()` (ASCII). -/
def pyLower (s : String) : String := String.mk (s.data.map lowerChar)

/-- ASCII decimal digit, as matched by the regex class `\d` on the ASCII
inputs at hand. -/
def pyDigit (c : Char) : Bool := "0123456789".data.contains c

/-- Decimal rendering of a natural number (Python `str(n)`); the first
argument is recursion fuel (`n` itself always suffices). -/
def natDigits : Nat → Nat → List Char
  | 0, _ => []
  | _ + 1, 0 => []
  | fuel + 1, n => natDigits fuel (n / 10) ++ [Char.ofNat (48 + n % 10)]

/-- Python `str(n)` for a natural number. -/
def natToStr (n : Nat) : String :=
  if n == 0 then "0" else String.mk (natDigits n n)

/-- Lexicographic comparison of character lists by code point; this is the
order Python uses to compare strings in `sorted`. -/
def charListLe : List Char → List Char → Bool
  | [], _ => true
  | _ :: _, [] => false
  | a :: as, b :: bs => if a == b then charListLe as bs else decide (a < b)

/-- Python string `≤`, used by `sorted` on path lists. -/
def pyStrLe (a b : String) : Bool := charListLe a.data b.data

/-- Stable insertion of an element into a sorted list. -/
def insertSorted (le : String → String → Bool) (x : String) : List String → List String
  | [] => [x]
  | y :: ys => if le x y then x :: y :: ys else y :: insertSorted le x ys

/-- Python `sorted` on a list of strings (any stable sort realizes it; the
claims only use that the result is a permutation of the input). -/
def pySorted (l : List String) : List String :=
  l.foldr (insertSorted pyStrLe) []

/-! ## Dict / set models -/

/-- Insertion-ordered association-list model of a Python `dict`
assignment `d[k] = v`: overwrite an existing binding in place, otherwise
append at the end. -/
def dictSet {α : Type} (d : List (String × α)) (k : String) (v : α) :
    List (String × α) :=
  if d.any (fun kv => kv.1 == k) then
    d.map (fun kv => if kv.1 == k then (k, v) else kv)
  else d ++ [(k, v)]

/-- Lookup in the association-list model of a Python `dict` (`d.get(k)` /
`k in d`). -/
def dictFind {α : Type} (d : List (String × α)) (k : String) : Option α :=
  (d.find? (fun kv => kv.1 == k)).map (fun kv => kv.2)

/-- Model of `s.add(x)` on a Python set realized as a duplicate-free
list. -/
def setAdd (l : List String) (x : String) : List String :=
  if x ∈ l then l else l ++ [x]

/-- Duplicate removal keeping the first occurrence of each element; this
realizes both a Python set built from a list and pandas
`drop_duplicates` (which keeps the first row). -/
def dedupKeepFirst : List String → List String
  | [] => []
  | x :: xs => x :: (dedupKeepFirst xs).filter (fun y => y ≠ x)

/-! ## The facility project-ID pattern (source: `is_valid_gcf_id`, line 43,
and `_match_project_dir`, line 64)

Python uses `re.match` with the pattern "GCF-", four digits, "-", three
digits.  `re.match` anchors at the START of the string only: it succeeds
whenever the pattern matches a prefix, and `m.group()` is that matched
prefix. -/

/-- Consume exactly `n` decimal digits from the front of a character list,
returning the digits and the remainder. -/
def takeDigits : Nat → List Char → Option (List Char × List Char)
  | 0, cs => some ([], cs)
  | _ + 1, [] => none
  | n + 1, c :: cs =>
    if pyDigit c then
      match takeDigits n cs with
      | some (d, r) => some (c :: d, r)
      | none => none
    else none

/-- Model of Python `re.match` with the facility-ID pattern: "GCF-", four
digits, "-", three digits, matched at the start of the string; returns the
matched prefix (what `m.group()` yields), or `none` when the pattern does
not match a prefix. -/
def reMatchGcf (s : String) : Option String :=
  match s.data with
  | 'G' :: 'C' :: 'F' :: '-' :: rest =>
    match takeDigits 4 rest with
    | some (d1, '-' :: rest2) =>
      match takeDigits 3 rest2 with
      | some (d2, _) => some (String.mk ('G' :: 'C' :: 'F' :: '-' :: (d1 ++ '-' :: d2)))
      | none => none
    | _ => none
  | _ => none

/-- Model of `is_valid_gcf_id` (lines 43-51).  `None` input returns the
Python value `True` (modelled as `Sum.inl true`); a string input returns
`m.group().strip()` on a match (`Sum.inr`) and raises
`argparse.ArgumentTypeError` otherwise. -/
def is_valid_gcf_id (arg : Option String) : Except Err (Bool ⊕ String) :=
  match arg with
  | none => .ok (.inl true)
  | some a =>
    match reMatchGcf a with
    | some m => .ok (.inr (pyStrip m))
    | none => .error (.invalidGcfId a)

/-! ## Sample-sheet parsing (source: `get_data_from_samplesheet`,
`get_project_samples_from_samplesheet`, `inspect_samplesheet`) -/

/-- Value of a custom option: Python keeps the string unless it compares
case-insensitively equal to "true", in which case it is replaced by the
boolean `True` (line 110-111; note there is no false-coercion). -/
inductive OptVal where
  | str (s : String)
  | boolTrue
  deriving Repr, DecidableEq

/-- The custom-options mapping `opts_d` (a Python dict). -/
abbrev Dict := List (String × OptVal)

/-- Loop body of `get_data_from_samplesheet` (lines 98-112), recursing over
the remaining lines of the file with the `custom_opts` flag and the
accumulated `opts_d` dict.  Reaching end-of-file without a "[Data]" line
executes line 101, `'No [data]-section in samplesheet {}'.format(s.name)`:
the name `s` is not bound in any enclosing scope of this function, so Python
raises `NameError` before the intended `RuntimeError` can be constructed;
the model therefore returns `Err.nameError "s"` at that point. -/
def gdLoop : List String → Bool → Dict → Except Err (List String × Dict)
  | [], _, _ => .error (.nameError "s")
  | line :: rest, custom_opts, opts_d =>
    if beginsWith "[Data]" line then .ok (rest, opts_d)
    else if beginsWith "[CustomOptions]" line then gdLoop rest true opts_d
    else if custom_opts then
      match (pySplit ',' line).map pyRstrip with
      | [key, val] =>
        gdLoop rest custom_opts
          (dictSet opts_d key
            (if pyLower val == "true" then OptVal.boolTrue else OptVal.str val))
      | _ => .error .unpackError
    else gdLoop rest custom_opts opts_d

/-- Model of `get_data_from_samplesheet` (lines 95-112).  A sheet is its
list of lines (without trailing newlines; `rstrip` in the source removes
them together with trailing spaces).  On success it returns the lines
after the "[Data]" marker (handed to `pd.read_csv`) and the collected
custom-options dict. -/
def get_data_from_samplesheet (lines : List String) : Except Err (List String × Dict) :=
  gdLoop lines false []

/-- The parsing loop of `get_project_samples_from_samplesheet`
(lines 119-123): parse every sheet in order, collecting the data sections;
the Python variable `opts` is re-bound on every iteration, so after the
loop it holds the options of the LAST sheet only (`none` here when the
loop body never ran). -/
def parseAll : List (List String) → Except Err (List (List String) × Option Dict)
  | [] => .ok ([], none)
  | sheet :: rest =>
    match get_data_from_samplesheet sheet with
    | .error e => .error e
    | .ok (data, opts) =>
      match parseAll rest with
      | .error e => .error e
      | .ok (datas, optsLater) => .ok (data :: datas, some (optsLater.getD opts))

/-- Minimal model of `pd.read_csv` on the data section: first line is the
header, each further line is one row, cells are comma-separated; a row is
the header zipped with its cells.  (Pandas quoting and dtype inference are
not modelled; no claim depends on them.) -/
def read_csv (lines : List String) : List (List (String × String)) :=
  match lines with
  | [] => []
  | h :: rest =>
    rest.map (fun r => (pySplit ',' h).zip (pySplit ',' r))

/-- Column access on a row of `read_csv` output. -/
def cell (row : List (String × String)) (c : String) : String :=
  ((row.find? (fun kv => kv.1 == c)).map (fun kv => kv.2)).getD ""

/-- Model of `get_project_samples_from_samplesheet` (lines 114-129) on the
already-located sheets: parse all sheets, concatenate the data tables
(`pd.concat`), filter rows whose `Sample_Project` equals the project id,
keep the `Sample_ID` column (string-typed) and drop duplicate IDs keeping
the first occurrence.  The returned dict is the `opts` of the last parsed
sheet (see `parseAll`). -/
def get_project_samples_from_samplesheet (sheets : List (List String))
    (project_id : Option String) : Except Err (List String × Dict) :=
  match parseAll sheets with
  | .error e => .error e
  | .ok (_, none) => .error .noObjectsToConcatenate
  | .ok (datas, some opts) =>
    let rows := (datas.map read_csv).flatten
    let rows := rows.filter (fun r => some (cell r "Sample_Project") == project_id)
    let ids := rows.map (fun r => cell r "Sample_ID")
    .ok (dedupKeepFirst ids, opts)

/-! ## Filesystem model -/

/-- One entry of `os.listdir`: a name plus whether it is a directory. -/
structure Entry where
  name : String
  isDir : Bool
  deriving Repr, DecidableEq

/-- One read-info record of `Stats/Stats.json`
(`ReadInfosForLanes[0].ReadInfos[i]`). -/
structure ReadInfo where
  isIndexedRead : Bool
  numCycles : Nat
  deriving Repr, DecidableEq

/-- The sample-submission workbook, abstracted to the `Sample_ID` columns
of its two relevant worksheets: sheet 0 (customer intake, after `skiprows`
and column renaming) and sheet 2 (lab QC, after renaming).  The renaming
and column-dropping steps of the source act on other columns only and are
not observable through the claims. -/
structure Workbook where
  customerIDs : List String
  labIDs : List String
  deriving Repr, DecidableEq

/-- Everything the program reads from one run folder. -/
structure RunDir where
  path : String
  listing : List Entry
  sampleSheet : Option (List String)
  statsReads : List ReadInfo
  subForm : Option Workbook
  filesOf : List (String × List String)
  deriving Repr, DecidableEq

/-- Python `os.path.basename` (also used for the last component of a
relative path). -/
def basename (p : String) : String := (pySplit '/' p).getLastD ""

/-- Python `os.path.dirname`. -/
def dirname (p : String) : String := joinSep "/" ((pySplit '/' p).dropLast)

/-- Python `os.path.relpath(x, base)` for the only case the program
exercises: `x` lies strictly below `base`. -/
def relpathUnder (x base : String) : String :=
  if beginsWith (base ++ "/") x then String.mk (x.data.drop (base.data.length + 1)) else x

/-! ## Input resolver (source: `_match_project_dir`, `inspect_dirs`,
`inspect_samplesheet`) -/

/-- An `os.listdir` entry that `_match_project_dir` counts as a candidate
project directory: a directory whose name `re.match`es the facility-ID
pattern (the test on line 64). -/
def isProjectEntry (e : Entry) : Bool := e.isDir && (reMatchGcf e.name).isSome

/-- The names of the candidate project directories of one run folder. -/
def projMatches (rd : RunDir) : List String :=
  (rd.listing.filter isProjectEntry).map (fun e => e.name)

/-- The first run folder (in argument order) that does not contain exactly
one candidate project directory. -/
def firstNonSingle (folders : List RunDir) : Option RunDir :=
  folders.find? (fun rd => decide ((projMatches rd).length ≠ 1))

/-- The project id inferred from a run folder that has exactly one
candidate project directory (the name of that directory). -/
def inferredId (rd : RunDir) : String := (projMatches rd).headD ""

/-- Loop of `_match_project_dir` with no explicit project id
(lines 62-68): scan the listing for directories whose name matches the
facility-ID pattern; a second match raises immediately. -/
def matchProjectGo : List Entry → Option String → Except Err (Option String)
  | [], acc => .ok acc
  | e :: rest, acc =>
    if isProjectEntry e then
      match acc with
      | some _ => .error .multipleProjectFolders
      | none => matchProjectGo rest (some e.name)
    else matchProjectGo rest acc

/-- Model of `_match_project_dir` (lines 53-71). -/
def _match_project_dir (pth : String) (listing : List Entry)
    (project_id : Option String) : Except Err (String × String) :=
  match project_id with
  | some pid =>
    if listing.any (fun e => e.isDir && e.name == pid) then
      .ok (pth ++ "/" ++ pid, pid)
    else .error (.projectNotPresent pid pth)
  | none =>
    match matchProjectGo listing none with
    | .error e => .error e
    | .ok (some fn) => .ok (pth ++ "/" ++ fn, fn)
    | .ok none => .error (.noValidProject pth)

/-- Loop of `inspect_dirs` (lines 134-137), collecting project directories
and the project ids in run-folder order (the ids are then deduplicated,
which models the Python set `project_ids`). -/
def inspectLoop : List RunDir → Option String → Except Err (List String × List String)
  | [], _ => .ok ([], [])
  | rd :: rest, pidArg =>
    match _match_project_dir rd.path rd.listing pidArg with
    | .error e => .error e
    | .ok (pdir, pid) =>
      match inspectLoop rest pidArg with
      | .error e => .error e
      | .ok (dirs, ids) => .ok (pdir :: dirs, pid :: ids)

/-- Model of `inspect_dirs` (lines 131-142). -/
def inspect_dirs (runfolders : List RunDir) (project_id : Option String) :
    Except Err (List String × Option String) :=
  match inspectLoop runfolders project_id with
  | .error e => .error e
  | .ok (dirs, ids) =>
    let project_ids := List.foldl setAdd [] ids
    if project_ids.length > 1 then .error .multipleProjectIds
    else
      match project_ids with
      | [p] => .ok (dirs, some p)
      | _ => .ok (dirs, project_id)

/-- Model of `inspect_samplesheet` (lines 77-93): an explicit sheet wins;
otherwise collect `SampleSheet.csv` from each run folder that has one and
fail if none found. -/
def inspect_samplesheet (samplesheet : Option (List String))
    (runfolders : List RunDir) : Except Err (List (List String)) :=
  match samplesheet with
  | some s => .ok [s]
  | none =>
    let ss := runfolders.filterMap (fun rd => rd.sampleSheet)
    if ss.isEmpty then .error .noSampleSheet else .ok ss

/-! ## FASTQ matcher (source: `match_fastq`, `find_samples`) -/

/-- Token of a glob pattern: a literal character or `*` (zero or more
characters within one path component). -/
inductive GlobTok where
  | lit (c : Char)
  | star
  deriving Repr, DecidableEq

/-- Standard glob/fnmatch semantics for a pattern of literals and stars,
written with explicit recursion fuel so that it reduces inside the kernel;
every recursive call strictly decreases `ps.length + cs.length`, so the
fuel supplied by `globMatch` below never runs out. -/
def globMatchF : Nat → List GlobTok → List Char → Bool
  | 0, _, _ => false
  | _ + 1, [], [] => true
  | _ + 1, [], _ :: _ => false
  | _ + 1, .lit _ :: _, [] => false
  | fuel + 1, .lit c :: ps, x :: xs => c == x && globMatchF fuel ps xs
  | fuel + 1, .star :: ps, [] => globMatchF fuel ps []
  | fuel + 1, .star :: ps, x :: xs =>
    globMatchF fuel ps (x :: xs) || globMatchF fuel (.star :: ps) xs

/-- Glob matching with sufficient fuel. -/
def globMatch (ps : List GlobTok) (cs : List Char) : Bool :=
  globMatchF (ps.length + cs.length + 1) ps cs

/-- Literal tokens of a string. -/
def litToks (s : String) : List GlobTok := s.data.map GlobTok.lit

/-- The glob pattern `sample_name + '_*' + read + '*.fastq.gz'` used on
lines 149-150 (with `read` being "R1" or "R2"); it applies to the basename
of each file found by the recursive `**` glob. -/
def fastqGlob (sample read : String) : List GlobTok :=
  litToks (sample ++ "_") ++ [GlobTok.star] ++ litToks read ++ [GlobTok.star] ++
    litToks ".fastq.gz"

/-- A project directory as seen by the recursive glob: its absolute path
and the paths of all files below it (relative to the directory itself, at
any depth). -/
structure PDir where
  path : String
  files : List String
  deriving Repr, DecidableEq

/-- Model of `match_fastq` (lines 144-154): all files under the project
directory whose basename matches the R1 (resp. R2) pattern, as sorted
absolute paths, mapped to paths relative to
`dirname(dirname(project_dir))` when `rel` is set. -/
def match_fastq (sample_name : String) (pd : PDir) (rel : Bool) :
    List String × List String :=
  let r1 := pySorted ((pd.files.filter
      (fun f => globMatch (fastqGlob sample_name "R1") (basename f).data)).map
      (fun f => pd.path ++ "/" ++ f))
  let r2 := pySorted ((pd.files.filter
      (fun f => globMatch (fastqGlob sample_name "R2") (basename f).data)).map
      (fun f => pd.path ++ "/" ++ f))
  if rel then
    (r1.map (fun x => relpathUnder x (dirname (dirname pd.path))),
     r2.map (fun x => relpathUnder x (dirname (dirname pd.path))))
  else (r1, r2)

/-- One record of the sample dictionary built by `find_samples`
(lines 166-171). -/
structure SampleRec where
  R1 : String
  R2 : String
  paired_end : Nat
  Sample_ID : String
  deriving Repr, DecidableEq

/-- The R1 matches of one sample aggregated over all project directories
(lines 159-164). -/
def sampleR1s (sid : String) (project_dirs : List PDir) : List String :=
  project_dirs.foldl (fun l pd => l ++ (match_fastq sid pd true).1) []

/-- The R2 matches of one sample aggregated over all project directories
(lines 159-164). -/
def sampleR2s (sid : String) (project_dirs : List PDir) : List String :=
  project_dirs.foldl (fun l pd => l ++ (match_fastq sid pd true).2) []

/-- The sample record stored for one sample id: comma-joined path lists
and the paired-end flag `0 if len(s_r2) == 0 else 1` (line 165). -/
def mkSampleRec (sid : String) (project_dirs : List PDir) : SampleRec :=
  { R1 := joinSep "," (sampleR1s sid project_dirs)
    R2 := joinSep "," (sampleR2s sid project_dirs)
    paired_end := if (sampleR2s sid project_dirs).length == 0 then 0 else 1
    Sample_ID := sid }

/-- Model of `find_samples` (lines 156-173): build the sample dict in row
order (`sample_dict[str(row.Sample_ID)] = ...`). -/
def find_samples (df : List String) (project_dirs : List PDir) :
    List (String × SampleRec) :=
  df.foldl (fun acc sid => dictSet acc sid (mkSampleRec sid project_dirs)) []

/-! ## Submission-form merger (source: `merge_samples_with_submission_form`,
`check_existence_of_samples`) -/

/-- One warning emitted on the logger, identified by the set of sample ids
its message names. -/
inductive Warning where
  | inSheetNotInForm (ids : List String)
  | inFormNotInSheet (ids : List String)
  deriving Repr, DecidableEq

/-- The sample ids a warning's message names. -/
def warningNames : Warning → List String
  | .inSheetNotInForm ids => ids
  | .inFormNotInSheet ids => ids

/-- Model of `check_existence_of_samples` (lines 222-229): both set
differences between the sample-dict keys and the (customer-sheet)
`Sample_ID` column; a non-empty difference produces one warning naming
exactly its members. -/
def check_existence_of_samples (samples : List String) (formIDs : List String) :
    List Warning :=
  let d1 := dedupKeepFirst (samples.filter (fun s => decide (s ∉ formIDs)))
  let d2 := dedupKeepFirst (formIDs.filter (fun s => decide (s ∉ samples)))
  (if d1.isEmpty then [] else [Warning.inSheetNotInForm d1]) ++
    (if d2.isEmpty then [] else [Warning.inFormNotInSheet d2])

/-- The submission-form table the sample dict is finally joined with
(lines 209-212): customer inner-joined with lab on `Sample_ID` when the
lab sheet is non-empty, otherwise the customer sheet alone. -/
def mergedFormIDs (wb : Workbook) : List String :=
  if wb.labIDs.isEmpty then wb.customerIDs
  else wb.customerIDs.filter (fun s => decide (s ∈ wb.labIDs))

/-- Model of `merge_samples_with_submission_form` (lines 175-220) at
sample-id granularity: the audit runs against the customer sheet
(line 199), then the sample dict is inner-joined with the merged form
table (line 215); a sample survives iff its id occurs in that table.
Submission-form attribute columns added to the records (and the final
`fillna('')`) concern fields the claims do not mention and are not
modelled. -/
def merge_samples_with_submission_form (wb : Workbook)
    (sample_dict : List (String × SampleRec)) :
    List (String × SampleRec) × List Warning :=
  let warns := check_existence_of_samples (sample_dict.map (fun kv => kv.1))
    wb.customerIDs
  (sample_dict.filter (fun kv => decide (kv.1 ∈ mergedFormIDs wb)), warns)

/-! ## Config assembler (source: `find_read_geometry`, `find_machine`,
`create_default_config`) -/

/-- Read geometry of one run folder (lines 235-240): cycle counts of the
non-indexed reads, in listed order. -/
def read_geometry_of (rd : RunDir) : List Nat :=
  (rd.statsReads.filter (fun r => !r.isIndexedRead)).map (fun r => r.numCycles)

/-- The per-folder descriptor string `':'.join(map(str, read_geometry))`
(line 241). -/
def geomDescriptor (g : List Nat) : String := joinSep ":" (g.map natToStr)

/-- Loop of `find_read_geometry` (lines 233-241): accumulate the
descriptor set and remember the last folder's geometry (the Python loop
variable `read_geometry`). -/
def frgLoop : List RunDir → List String → Option (List Nat) →
    List String × Option (List Nat)
  | [], acc, last => (acc, last)
  | rd :: rest, acc, _ =>
    frgLoop rest (setAdd acc (geomDescriptor (read_geometry_of rd)))
      (some (read_geometry_of rd))

/-- Model of `find_read_geometry` (lines 231-244): mismatching descriptors
are a hard error; otherwise the last folder's geometry is returned (with
no folder at all, the unbound loop variable raises `NameError`). -/
def find_read_geometry (runfolders : List RunDir) : Except Err (List Nat) :=
  match frgLoop runfolders [] none with
  | (all, last) =>
    if all.length > 1 then .error .readGeometryMismatch
    else
      match last with
      | some g => .ok g
      | none => .error (.nameError "read_geometry")

/-- The machine-code lookup table (lines 18-25). -/
def SEQUENCERS : List (String × String) :=
  [("NB501038", "NextSeq 500"), ("SN7001334", "HiSeq 2500"), ("K00251", "HiSeq 4000"),
   ("M02675", "MiSeq NTNU"), ("M03942", "MiSeq StOlav"), ("M05617", "MiSeq SINTEF")]

/-- `SEQUENCERS.get(machine_code, '')` (line 250). -/
def seqGet (code : String) : String :=
  ((SEQUENCERS.find? (fun kv => kv.1 == code)).map (fun kv => kv.2)).getD ""

/-- Loop of `find_machine` (lines 248-251): split each folder basename on
underscores, take segment 1 (IndexError when absent), look it up with
default "", and add the result — including the empty string — to the
`matches` set. -/
def fmLoop : List RunDir → List String → Except Err (List String)
  | [], acc => .ok acc
  | rd :: rest, acc =>
    match pySplit '_' (basename rd.path) with
    | _ :: code :: _ => fmLoop rest (setAdd acc (seqGet code))
    | _ => .error .indexError

/-- Model of `find_machine` (lines 246-254): pipe-join of the collected
set.  The non-fatal "Multiple sequencing machines identified!" warning
(line 253) is logging only and is not modelled. -/
def find_machine (runfolders : List RunDir) : Except Err String :=
  match fmLoop runfolders [] with
  | .error e => .error e
  | .ok ms => .ok (joinSep "|" ms)

/-- The mapped model name of one run folder (machine-code segment looked
up in `SEQUENCERS`, unknown codes giving ""); used to characterize
`find_machine`. -/
def machineModel (rd : RunDir) : String :=
  seqGet ((pySplit '_' (basename rd.path)).getD 1 "")

/-- The parsed command-line arguments that the pipeline consumes
(lines 283-294).  `--create-fastq-dir` (filesystem symlinking) is outside
the claims and not modelled. -/
structure Args where
  project_id : Option String
  samplesheet : Option (List String)
  ssub : Option Workbook
  organism : Option String
  libkit : Option String
  machine : Option String
  runfolders : List RunDir
  deriving Repr, DecidableEq

/-- The output config document; an `Option` field is `none` exactly when
the corresponding key is absent from the Python dict.  (The source emits
keys in the fixed order project_id, organism, libprepkit, read_geometry,
machine, fastq_dir, samples; key order is not observable through the
claims.) -/
structure Config where
  project_id : Option String
  organism : Option OptVal
  libprepkit : Option OptVal
  read_geometry : List Nat
  machine : String
  fastq_dir : Option String
  samples : List (String × SampleRec)
  deriving Repr, DecidableEq

/-- Python `args.machine or find_machine(args.runfolders)` (line 272):
`None` and the empty string are falsy and fall through to
`find_machine`. -/
def pyOrMachine (m : Option String) (runfolders : List RunDir) : Except Err String :=
  match m with
  | some s => if s == "" then find_machine runfolders else .ok s
  | none => find_machine runfolders

/-- Model of `create_default_config` (lines 256-278). -/
def create_default_config (sample_dict : List (String × SampleRec)) (opts : Dict)
    (args : Args) (project_id : Option String) (fastq_dir : Option String) :
    Except Err Config :=
  let organism0 := dictFind opts "Organism"
  let organism := match args.organism with
    | some o => some (OptVal.str o)
    | none => organism0
  let lib0 := dictFind opts "Libprep"
  let libprepkit := match args.libkit with
    | some kit => some (OptVal.str kit)
    | none => lib0
  match find_read_geometry args.runfolders with
  | .error e => .error e
  | .ok rg =>
    match pyOrMachine args.machine args.runfolders with
    | .error e => .error e
    | .ok machine =>
      .ok { project_id := match project_id with
              | some p => if p == "" then none else some p
              | none => none
            organism := organism
            libprepkit := libprepkit
            read_geometry := rg
            machine := machine
            fastq_dir := fastq_dir
            samples := sample_dict }

/-! ## Main flow (lines 281-330) -/

/-- Lines 299-305: default the submission form from a single run folder,
require the option with several run folders. -/
def resolveSsub (ssubArg : Option Workbook) (runfolders : List RunDir) :
    Except Err (Option Workbook) :=
  match ssubArg with
  | some wb => .ok (some wb)
  | none =>
    match runfolders with
    | [rd] => .ok rd.subForm
    | _ => .error .ssubRequired

/-- The files below a named project subdirectory of a run folder. -/
def filesUnder (rd : RunDir) (dirName : String) : List String :=
  ((rd.filesOf.find? (fun kv => kv.1 == dirName)).map (fun kv => kv.2)).getD []

/-- The processing pipeline of `__main__` after argument parsing
(lines 295-328), with `--create-fastq-dir` unset. -/
def mainPipeline (args : Args) : Except Err (Config × List Warning) :=
  match inspect_dirs args.runfolders args.project_id with
  | .error e => .error e
  | .ok (project_dirs, pid) =>
    match inspect_samplesheet args.samplesheet args.runfolders with
    | .error e => .error e
    | .ok sheets =>
      match get_project_samples_from_samplesheet sheets pid with
      | .error e => .error e
      | .ok (ids, opts) =>
        let pdirs := (args.runfolders.zip project_dirs).map
          (fun rp => PDir.mk rp.2 (filesUnder rp.1 (basename rp.2)))
        let sample_dict := find_samples ids pdirs
        match resolveSsub args.ssub args.runfolders with
        | .error e => .error e
        | .ok ssub =>
          let sw := match ssub with
            | some wb => merge_samples_with_submission_form wb sample_dict
            | none => (sample_dict, [])
          match create_default_config sw.1 opts args pid none with
          | .error e => .error e
          | .ok cfg => .ok (cfg, sw.2)

/-- One run of the program, tracking the contents of the file named by
`--output` (`none` = the file does not exist).  `--output` is declared
with `argparse.FileType('w')` (line 287), so argparse opens the path for
writing — creating the file, truncating it to empty if it already exists —
while parsing the arguments, before the pipeline runs; on success
`yaml.dump` writes the serialized config into it (modelled by an injective
rendering; the concrete YAML syntax is not observable through the
claims). -/
def runMain (args : Args) (_outputBefore : Option String) :
    Option String × Except Err (Config × List Warning) :=
  let outputAfterParse : Option String := some ""
  match mainPipeline args with
  | .error e => (outputAfterParse, .error e)
  | .ok r => (some (reprStr r.1), .ok r)

/-! ## Concrete fixtures used by counterexamples and witnesses -/

/-- A run folder whose listing contains no candidate project directory. -/
def rdNoProject : RunDir :=
  { path := "/r0", listing := [], sampleSheet := none, statsReads := [],
    subForm := none, filesOf := [] }

/-- A run folder whose listing contains two candidate project
directories. -/
def rdTwoProjects : RunDir :=
  { path := "/r1",
    listing := [{ name := "GCF-2020-001", isDir := true },
                { name := "GCF-2020-002", isDir := true }],
    sampleSheet := none, statsReads := [], subForm := none, filesOf := [] }

/-- A run folder whose basename carries the known machine code NB501038
and whose stats file reports one non-indexed 75-cycle read. -/
def rdKnownMachine : RunDir :=
  { path := "/data/181023_NB501038_0123_AH", listing := [], sampleSheet := none,
    statsReads := [{ isIndexedRead := false, numCycles := 75 }],
    subForm := none, filesOf := [] }

/-- A run folder whose basename carries a machine code absent from
`SEQUENCERS`, with the same read geometry as `rdKnownMachine`. -/
def rdUnknownMachine : RunDir :=
  { path := "/data/181024_ZZ999_0124_BH", listing := [], sampleSheet := none,
    statsReads := [{ isIndexedRead := false, numCycles := 75 }],
    subForm := none, filesOf := [] }

/-- Arguments with no machine override over one known-code and one
unknown-code run folder. -/
def argsMachineMix : Args :=
  { project_id := none, samplesheet := none, ssub := none, organism := none,
    libkit := none, machine := none, runfolders := [rdKnownMachine, rdUnknownMachine] }

/-- The config produced from `argsMachineMix`. -/
def cfgMachineMix : Config :=
  { project_id := none, organism := none, libprepkit := none, read_geometry := [75],
    machine := "NextSeq 500|", fastq_dir := none, samples := [] }

/-- Arguments with sample-sheet custom option Organism=human overridden by
`--organism mouse` and an explicit machine override. -/
def argsOrganismOverride : Args :=
  { project_id := none, samplesheet := none, ssub := none, organism := some "mouse",
    libkit := none, machine := some "NextSeq 500", runfolders := [rdKnownMachine] }

/-- The custom options parsed from a sheet with `Organism,human`. -/
def optsOrganismHuman : Dict := [("Organism", OptVal.str "human")]

/-- The config produced from `argsOrganismOverride` and
`optsOrganismHuman`. -/
def cfgOrganismMouse : Config :=
  { project_id := none, organism := some (.str "mouse"), libprepkit := none,
    read_geometry := [75], machine := "NextSeq 500", fastq_dir := none, samples := [] }

/-- A project directory holding one R1 and one R2 fastq file of sample
S1. -/
def pdPaired : PDir :=
  { path := "/data/run/GCF-2020-001",
    files := ["sub/S1_L001_R1_001.fastq.gz", "sub/S1_L001_R2_001.fastq.gz"] }

/-- A minimal sample record used to populate fixture sample dicts. -/
def blankRec (sid : String) : SampleRec :=
  { R1 := "", R2 := "", paired_end := 0, Sample_ID := sid }

/-- A submission form whose customer sheet lists B and C and whose lab
sheet is empty. -/
def wbSheetBC : Workbook := { customerIDs := ["B", "C"], labIDs := [] }

/-- A fixture sample dict with samples A and B. -/
def sdAB : List (String × SampleRec) := [("A", blankRec "A"), ("B", blankRec "B")]

/-- A submission form whose customer sheet lists B and whose non-empty lab
sheet lists only C. -/
def wbLabC : Workbook := { customerIDs := ["B"], labIDs := ["C"] }

/-- A fixture sample dict with the single sample B. -/
def sdB : List (String × SampleRec) := [("B", blankRec "B")]

/-- Arguments whose single run folder contains no project directory, so
the pipeline fails in `inspect_dirs`. -/
def argsFailing : Args :=
  { project_id := none, samplesheet := none, ssub := none, organism := none,
    libkit := none, machine := none, runfolders := [rdNoProject] }

/-! ## General lemmas about the model primitives -/

theorem mem_dedupKeepFirst {a : String} {l : List String} :
    a ∈ dedupKeepFirst l ↔ a ∈ l := by
  induction l with
  | nil => simp [dedupKeepFirst]
  | cons x xs ih =>
    rw [dedupKeepFirst]
    by_cases hax : a = x
    · subst hax; simp
    · simp only [List.mem_cons, List.mem_filter, ih]
      constructor
      · rintro (h | ⟨h, _⟩)
        · exact absurd h hax
        · exact Or.inr h
      · rintro (h | h)
        · exact absurd h hax
        · exact Or.inr ⟨h, by simpa using hax⟩

theorem nodup_dedupKeepFirst (l : List String) : (dedupKeepFirst l).Nodup := by
  induction l with
  | nil => simp [dedupKeepFirst]
  | cons x xs ih =>
    rw [dedupKeepFirst]
    refine List.nodup_cons.mpr ⟨?_, ih.filter _⟩
    intro hmem
    simp [List.mem_filter] at hmem

theorem two_le_dedupKeepFirst_iff {l : List String} :
    2 ≤ (dedupKeepFirst l).length ↔ ∃ a ∈ l, ∃ b ∈ l, a ≠ b := by
  constructor
  · intro h
    match hE : dedupKeepFirst l with
    | [] => rw [hE] at h; simp at h
    | [x] => rw [hE] at h; simp at h
    | a :: b :: t =>
      have hnd := nodup_dedupKeepFirst l
      rw [hE] at hnd
      have hab : a ≠ b := by
        intro hc; subst hc
        exact (List.nodup_cons.mp hnd).1 (List.mem_cons_self _ _)
      have ha : a ∈ l := mem_dedupKeepFirst.mp (by rw [hE]; simp)
      have hb : b ∈ l := mem_dedupKeepFirst.mp (by rw [hE]; simp)
      exact ⟨a, ha, b, hb, hab⟩
  · rintro ⟨a, ha, b, hb, hab⟩
    by_contra hlt
    push_neg at hlt
    have ha' : a ∈ dedupKeepFirst l := mem_dedupKeepFirst.mpr ha
    have hb' : b ∈ dedupKeepFirst l := mem_dedupKeepFirst.mpr hb
    interval_cases h : (dedupKeepFirst l).length
    · rw [List.length_eq_zero] at h; rw [h] at ha'; simp at ha'
    · rw [List.length_eq_one] at h
      obtain ⟨x, hx⟩ := h
      rw [hx] at ha' hb'
      simp at ha' hb'
      exact hab (ha'.trans hb'.symm)

theorem dedupKeepFirst_filter (p : String → Bool) (l : List String) :
    dedupKeepFirst (l.filter p) = (dedupKeepFirst l).filter p := by
  induction l with
  | nil => rfl
  | cons x xs ih =>
    by_cases hp : p x = true
    · rw [List.filter_cons_of_pos hp, dedupKeepFirst, dedupKeepFirst,
        List.filter_cons_of_pos hp, ih, List.filter_filter, List.filter_filter]
      congr 1
      apply List.filter_congr
      intro y _
      exact Bool.and_comm _ _
    · have hp' : p x = false := by simpa using hp
      rw [List.filter_cons_of_neg (by simp [hp']), dedupKeepFirst,
        List.filter_cons_of_neg (by simp [hp']), ih, List.filter_filter]
      apply List.filter_congr
      intro y _
      by_cases hyx : y = x
      · subst hyx; simp [hp']
      · simp [hyx]

theorem foldl_setAdd_spec (l : List String) : ∀ acc,
    List.foldl setAdd acc l =
      acc ++ dedupKeepFirst (l.filter (fun x => decide (x ∉ acc))) := by
  induction l with
  | nil => intro acc; simp [dedupKeepFirst]
  | cons x xs ih =>
    intro acc
    rw [List.foldl_cons]
    by_cases hx : x ∈ acc
    · have hset : setAdd acc x = acc := by simp [setAdd, hx]
      rw [hset, ih]
      have hfc : (x :: xs).filter (fun y => decide (y ∉ acc)) =
          xs.filter (fun y => decide (y ∉ acc)) := by
        simp [List.filter_cons, hx]
      rw [hfc]
    · have hset : setAdd acc x = acc ++ [x] := by simp [setAdd, hx]
      rw [hset, ih]
      have hfc : (x :: xs).filter (fun y => decide (y ∉ acc)) =
          x :: xs.filter (fun y => decide (y ∉ acc)) := by
        simp [List.filter_cons, hx]
      rw [hfc, dedupKeepFirst, List.append_assoc, List.singleton_append]
      congr 2
      rw [← dedupKeepFirst_filter]
      apply congrArg dedupKeepFirst
      rw [List.filter_filter]
      apply List.filter_congr
      intro y _
      by_cases h1 : y ∈ acc <;> by_cases h2 : y = x <;>
        simp [h1, h2, List.mem_append]

theorem foldl_setAdd_nil (l : List String) :
    List.foldl setAdd [] l = dedupKeepFirst l := by
  rw [foldl_setAdd_spec]
  simp

theorem findReplaceSelf {α : Type} (k : String) (v : α) (d : List (String × α))
    (h : d.any (fun kv => kv.1 == k) = true) :
    List.find? (fun kv => kv.1 == k)
      (d.map (fun kv => if kv.1 == k then (k, v) else kv)) = some (k, v) := by
  induction d with
  | nil => simp at h
  | cons kv d ih =>
    rw [List.map_cons, List.find?_cons]
    by_cases hk : (kv.1 == k) = true
    · rw [if_pos hk]
      simp
    · rw [if_neg (by simp [hk])]
      have hk' : (kv.1 == k) = false := by simpa using hk
      simp only [List.any_cons, hk', Bool.false_or] at h
      rw [hk']
      exact ih h

theorem findReplaceNe {α : Type} (k k' : String) (v : α) (hne : k ≠ k')
    (d : List (String × α)) :
    List.find? (fun kv => kv.1 == k')
      (d.map (fun kv => if kv.1 == k then (k, v) else kv)) =
    List.find? (fun kv => kv.1 == k') d := by
  induction d with
  | nil => rfl
  | cons kv d ih =>
    rw [List.map_cons, List.find?_cons, List.find?_cons]
    by_cases hk : (kv.1 == k) = true
    · rw [if_pos hk]
      have h1 : kv.1 = k := by simpa using hk
      have h2 : (k == k') = false := by simpa using hne
      have h3 : (kv.1 == k') = false := by rw [h1]; exact h2
      rw [h2, h3]
      exact ih
    · rw [if_neg (by simp [hk])]
      by_cases hkk : (kv.1 == k') = true
      · rw [hkk]
      · have hkk' : (kv.1 == k') = false := by simpa using hkk
        rw [hkk']
        exact ih

theorem dictFind_dictSet_self {α : Type} (d : List (String × α)) (k : String) (v : α) :
    dictFind (dictSet d k v) k = some v := by
  by_cases h : (d.any fun kv => kv.1 == k) = true
  · unfold dictSet dictFind
    rw [if_pos h, findReplaceSelf k v d h]
    rfl
  · unfold dictSet dictFind
    rw [if_neg h, List.find?_append]
    have h2 : List.find? (fun kv => kv.1 == k) d = none := by
      rw [List.find?_eq_none]
      intro kv hkv hc
      exact h (List.any_eq_true.mpr ⟨kv, hkv, hc⟩)
    rw [h2]
    simp [List.find?_cons]

theorem dictFind_dictSet_ne {α : Type} (d : List (String × α)) (k k' : String) (v : α)
    (hne : k ≠ k') : dictFind (dictSet d k v) k' = dictFind d k' := by
  by_cases h : (d.any fun kv => kv.1 == k) = true
  · unfold dictSet dictFind
    rw [if_pos h, findReplaceNe k k' v hne d]
  · unfold dictSet dictFind
    rw [if_neg h, List.find?_append]
    have h2 : (k == k') = false := by simpa using hne
    simp [List.find?_cons, h2]

theorem takeDigits_spec :
    ∀ (n : Nat) (cs d r : List Char), takeDigits n cs = some (d, r) →
      cs = d ++ r ∧ d.length = n ∧ ∀ c ∈ d, pyDigit c = true := by
  intro n
  induction n with
  | zero =>
    intro cs d r h
    simp [takeDigits] at h
    obtain ⟨hd, hr⟩ := h
    subst hd; subst hr
    simp
  | succ n ih =>
    intro cs d r h
    match cs with
    | [] => simp [takeDigits] at h
    | c :: cs' =>
      rw [takeDigits] at h
      by_cases hc : pyDigit c = true
      · rw [if_pos hc] at h
        match htd : takeDigits n cs' with
        | some (d', r') =>
          rw [htd] at h
          simp at h
          obtain ⟨hd, hr⟩ := h
          obtain ⟨he, hl, hdig⟩ := ih cs' d' r' htd
          subst hd; subst hr
          refine ⟨by simp [he], by simp [hl], ?_⟩
          intro x hx
          rcases List.mem_cons.mp hx with hx | hx
          · subst hx; exact hc
          · exact hdig x hx
        | none => rw [htd] at h; simp at h
      · rw [if_neg hc] at h; simp at h

theorem pyDigit_not_whitespace {c : Char} (h : pyDigit c = true) :
    pyWhitespace c = false := by
  have hmem : c ∈ "0123456789".data := by
    have : "0123456789".data.elem c = true := by
      simpa [pyDigit, List.contains] using h
    exact List.elem_iff.mp this
  fin_cases hmem <;> decide

/-- Structure of a successful facility-ID match: the returned group is a
whitespace-free 12-character string and a prefix of the input (so
`strip()` leaves it unchanged, and a string that matches in full is
returned as it is). -/
theorem reMatchGcf_shape {s p : String} (h : reMatchGcf s = some p) :
    pyStrip p = p ∧ ∃ t, s = p ++ t := by
  unfold reMatchGcf at h
  split at h
  case h_2 => exact absurd h (by simp)
  case h_1 cs rest heq =>
    split at h
    case h_2 hne => exact absurd h (by simp)
    case h_1 d1 rest2 htd1 =>
      split at h
      case h_2 => exact absurd h (by simp)
      case h_1 d2 r2 htd2 =>
        simp only [Option.some.injEq] at h
        obtain ⟨es, hl1, hdig1⟩ := takeDigits_spec 4 rest d1 ('-' :: rest2) htd1
        obtain ⟨es2, hl2, hdig2⟩ := takeDigits_spec 3 rest2 d2 r2 htd2
        subst h
        constructor
        · -- strip is the identity on the matched group
          obtain ⟨a, b, c, hd2⟩ := List.length_eq_three.mp hl2
          subst hd2
          unfold pyStrip
          rw [List.dropWhile_cons]
          have hG : pyWhitespace 'G' = false := by decide
          rw [hG]
          simp only [Bool.false_eq_true, if_false]
          have hrev : ('G' :: 'C' :: 'F' :: '-' :: (d1 ++ '-' :: [a, b, c])).reverse
              = c :: ('G' :: 'C' :: 'F' :: '-' :: (d1 ++ '-' :: [a, b])).reverse := by
            simp
          rw [hrev, List.dropWhile_cons]
          have hcw : pyWhitespace c = false :=
            pyDigit_not_whitespace (hdig2 c (by simp))
          rw [hcw]
          simp
        · -- the matched group is a prefix of the input
          refine ⟨String.mk r2, ?_⟩
          have hdata : s.data = ('G' :: 'C' :: 'F' :: '-' :: (d1 ++ '-' :: d2)) ++ r2 := by
            rw [heq, es, es2]
            simp
          have : s = String.mk (('G' :: 'C' :: 'F' :: '-' :: (d1 ++ '-' :: d2)) ++ r2) := by
            cases s
            simpa using congrArg String.mk hdata
          rw [this]
          rfl

/-! ## Claim C1 — custom options across several sample sheets -/

theorem parseAll_ok_none {sheets : List (List String)} {r : List (List String)}
    (h : parseAll sheets = .ok (r, none)) : sheets = [] := by
  cases sheets with
  | nil => rfl
  | cons sheet rest =>
    rw [parseAll] at h
    cases hp : get_data_from_samplesheet sheet with
    | error e => rw [hp] at h; simp at h
    | ok dp =>
      obtain ⟨data, opts⟩ := dp
      rw [hp] at h
      cases hr : parseAll rest with
      | error e => rw [hr] at h; simp at h
      | ok dr =>
        obtain ⟨datas, optsLater⟩ := dr
        rw [hr] at h
        simp at h

theorem parseAll_last : ∀ (sheets datas : List (List String)) (opts : Dict),
    parseAll sheets = .ok (datas, some opts) →
    ∃ pre last d, sheets = pre ++ [last] ∧
      get_data_from_samplesheet last = .ok (d, opts) := by
  intro sheets
  induction sheets with
  | nil =>
    intro datas opts h
    rw [parseAll] at h
    simp at h
  | cons sheet rest ih =>
    intro datas opts h
    rw [parseAll] at h
    cases hp : get_data_from_samplesheet sheet with
    | error e => rw [hp] at h; simp at h
    | ok dp =>
      obtain ⟨data, opts0⟩ := dp
      rw [hp] at h
      cases hr : parseAll rest with
      | error e => rw [hr] at h; simp at h
      | ok dr =>
        obtain ⟨datas', optsLater⟩ := dr
        rw [hr] at h
        simp only [Except.ok.injEq, Prod.mk.injEq, Option.some.injEq] at h
        obtain ⟨-, ho⟩ := h
        cases optsLater with
        | none =>
          have hrest : rest = [] := parseAll_ok_none hr
          subst hrest
          have hoo : opts0 = opts := by simpa using ho
          subst hoo
          exact ⟨[], sheet, data, rfl, hp⟩
        | some o =>
          have hoo : o = opts := by simpa using ho
          subst hoo
          obtain ⟨pre, last, d, hsplit, hlast⟩ := ih datas' o hr
          exact ⟨sheet :: pre, last, d, by simp [hsplit], hlast⟩

/-- C1 (amended): with several sample sheets, the Sample-Sheet Reader does
NOT merge the `[CustomOptions]` blocks — the Python loop re-binds `opts`
on every iteration (line 122), so the mapping handed back by
`get_project_samples_from_samplesheet` (line 129) is exactly the
custom-options mapping of the last parsed sheet, and the options of every
earlier sheet are discarded whether or not their keys collide. -/
theorem C1_last_sheet_options_only (sheets : List (List String))
    (pid : Option String) (ids : List String) (opts : Dict)
    (h : get_project_samples_from_samplesheet sheets pid = .ok (ids, opts)) :
    ∃ pre last d, sheets = pre ++ [last] ∧
      get_data_from_samplesheet last = .ok (d, opts) := by
  unfold get_project_samples_from_samplesheet at h
  cases hp : parseAll sheets with
  | error e => rw [hp] at h; simp at h
  | ok po =>
    obtain ⟨datas, o⟩ := po
    rw [hp] at h
    cases o with
    | none => simp at h
    | some opts' =>
      have hoo : opts' = opts := by
        simp only [Except.ok.injEq, Prod.mk.injEq] at h
        exact h.2
      subst hoo
      exact parseAll_last sheets datas opts' hp

/-- C1 counterexample: two sheets are parsed; the key "Organism" appears
in the earlier sheet's `[CustomOptions]` block and in no later sheet, so
the claim requires it (with value "human") in the returned mapping — but
the returned mapping is empty. -/
theorem C1_counterexample :
    get_project_samples_from_samplesheet
      [["[CustomOptions]", "Organism,human", "[Data]",
        "Sample_ID,Sample_Project", "S1,GCF-2020-001"],
       ["[Data]", "Sample_ID,Sample_Project", "S2,GCF-2020-001"]]
      (some "GCF-2020-001") = .ok (["S1", "S2"], []) ∧
    dictFind ([] : Dict) "Organism" = none := ⟨rfl, rfl⟩

theorem C1_witness :
    ∃ pre last d,
      ([["[CustomOptions]", "Organism,human", "[Data]",
         "Sample_ID,Sample_Project", "S1,GCF-2020-001"],
        ["[Data]", "Sample_ID,Sample_Project", "S2,GCF-2020-001"]] :
        List (List String)) = pre ++ [last] ∧
      get_data_from_samplesheet last = .ok (d, []) :=
  C1_last_sheet_options_only _ (some "GCF-2020-001") ["S1", "S2"] [] rfl

/-! ## Claim C3 — sample sheet without a [Data] section -/

theorem gdLoop_no_data : ∀ (lines : List String) (d : Dict),
    (∀ l ∈ lines, beginsWith "[Data]" l = false) →
    (∀ l ∈ lines, beginsWith "[CustomOptions]" l = false) →
    gdLoop lines false d = .error (.nameError "s") := by
  intro lines
  induction lines with
  | nil => intro d _ _; rfl
  | cons line rest ih =>
    intro d hD hC
    have h1 : beginsWith "[Data]" line = false := hD line (by simp)
    have h2 : beginsWith "[CustomOptions]" line = false := hC line (by simp)
    rw [gdLoop, h1, h2]
    simp only [Bool.false_eq_true, if_false]
    exact ih d (fun l hl => hD l (by simp [hl])) (fun l hl => hC l (by simp [hl]))

/-- C3 (code bug): a sample sheet whose lines contain no `[Data]` marker
does abort parsing, but not with the descriptive "No [data]-section"
`RuntimeError` the source intends (line 101-102): building that message
evaluates `s.name`, and `s` is not bound in any scope of
`get_data_from_samplesheet`, so Python raises `NameError: name 's' is not
defined` — an unrelated error, exactly what the claim excludes.  (The
`[CustomOptions]`-free hypothesis pins down the error; with custom-option
lines present the run still aborts, via the same `NameError` or an
unpacking `ValueError`, never via the descriptive message.) -/
theorem C3_no_data_aborts_with_nameError (lines : List String)
    (hD : ∀ l ∈ lines, beginsWith "[Data]" l = false)
    (hC : ∀ l ∈ lines, beginsWith "[CustomOptions]" l = false) :
    get_data_from_samplesheet lines = .error (.nameError "s") :=
  gdLoop_no_data lines [] hD hC

theorem C3_witness :
    get_data_from_samplesheet ["Sample_ID,Sample_Project", "S1,GCF-2020-001"] =
      .error (.nameError "s") :=
  C3_no_data_aborts_with_nameError _ (by decide) (by decide)

/-! ## Claim C5 — project-ID validation -/

/-- C5 (amended): `is_valid_gcf_id` uses `re.match`, which anchors only at
the start of the string.  A string on which the pattern matches no prefix
fails with the `ArgumentTypeError` (spec name: `InvalidProjectIdError`);
but a string whose PREFIX matches is accepted, and what is returned is the
matched prefix (`m.group().strip()`), not the original argument — so a
valid ID with trailing garbage is accepted and silently truncated, and
only strings that match in full are returned unchanged (the case `t = ""`
below). -/
theorem C5_prefix_match_validation (s : String) :
    (reMatchGcf s = none →
      is_valid_gcf_id (some s) = .error (.invalidGcfId s)) ∧
    (∀ p, reMatchGcf s = some p →
      is_valid_gcf_id (some s) = .ok (.inr p) ∧ ∃ t, s = p ++ t) := by
  constructor
  · intro h
    simp only [is_valid_gcf_id]
    rw [h]
  · intro p h
    obtain ⟨hstrip, t, ht⟩ := reMatchGcf_shape h
    refine ⟨?_, t, ht⟩
    simp only [is_valid_gcf_id]
    rw [h]
    simp only [Except.ok.injEq, Sum.inr.injEq]
    exact hstrip

/-- C5 counterexample: the claim requires `InvalidProjectIdError` for
"GCF-2020-0011" (valid prefix plus a trailing character); the code instead
accepts it and returns the truncated prefix "GCF-2020-001", which is not
the input string. -/
theorem C5_counterexample :
    is_valid_gcf_id (some "GCF-2020-0011") = .ok (.inr "GCF-2020-001") ∧
    ("GCF-2020-001" : String) ≠ "GCF-2020-0011" := ⟨rfl, by decide⟩

theorem C5_witness :
    is_valid_gcf_id (some "GCF-2024-123") = .ok (.inr "GCF-2024-123") ∧
    ∃ t, ("GCF-2024-123" : String) = "GCF-2024-123" ++ t :=
  (C5_prefix_match_validation "GCF-2024-123").2 "GCF-2024-123" rfl

/-! ## Claim C9 — project resolution errors -/

theorem matchProjectGo_some_empty : ∀ (es : List Entry) (x : String),
    es.filter isProjectEntry = [] → matchProjectGo es (some x) = .ok (some x) := by
  intro es
  induction es with
  | nil => intro x _; rfl
  | cons e rest ih =>
    intro x h
    by_cases hP : isProjectEntry e = true
    · rw [List.filter_cons_of_pos hP] at h
      simp at h
    · have hP' : isProjectEntry e = false := by simpa using hP
      rw [List.filter_cons_of_neg (by simp [hP'])] at h
      rw [matchProjectGo, if_neg (by simp [hP'])]
      exact ih x h

theorem matchProjectGo_some_nonempty : ∀ (es : List Entry) (x : String)
    (e : Entry) (tl : List Entry), es.filter isProjectEntry = e :: tl →
    matchProjectGo es (some x) = .error .multipleProjectFolders := by
  intro es
  induction es with
  | nil => intro x e tl h; simp at h
  | cons e0 rest ih =>
    intro x e tl h
    by_cases hP : isProjectEntry e0 = true
    · rw [matchProjectGo, if_pos hP]
    · have hP' : isProjectEntry e0 = false := by simpa using hP
      rw [List.filter_cons_of_neg (by simp [hP'])] at h
      rw [matchProjectGo, if_neg (by simp [hP'])]
      exact ih x e tl h

theorem matchProjectGo_zero : ∀ (es : List Entry),
    es.filter isProjectEntry = [] → matchProjectGo es none = .ok none := by
  intro es
  induction es with
  | nil => intro _; rfl
  | cons e rest ih =>
    intro h
    by_cases hP : isProjectEntry e = true
    · rw [List.filter_cons_of_pos hP] at h
      simp at h
    · have hP' : isProjectEntry e = false := by simpa using hP
      rw [List.filter_cons_of_neg (by simp [hP'])] at h
      rw [matchProjectGo, if_neg (by simp [hP'])]
      exact ih h

theorem matchProjectGo_one : ∀ (es : List Entry) (e : Entry),
    es.filter isProjectEntry = [e] →
    matchProjectGo es none = .ok (some e.name) := by
  intro es
  induction es with
  | nil => intro e h; simp at h
  | cons e0 rest ih =>
    intro e h
    by_cases hP : isProjectEntry e0 = true
    · rw [List.filter_cons_of_pos hP] at h
      simp only [List.cons.injEq] at h
      obtain ⟨he, hrest⟩ := h
      subst he
      rw [matchProjectGo, if_pos hP]
      exact matchProjectGo_some_empty rest e0.name hrest
    · have hP' : isProjectEntry e0 = false := by simpa using hP
      rw [List.filter_cons_of_neg (by simp [hP'])] at h
      rw [matchProjectGo, if_neg (by simp [hP'])]
      exact ih e h

theorem matchProjectGo_many : ∀ (es : List Entry) (e1 e2 : Entry)
    (tl : List Entry), es.filter isProjectEntry = e1 :: e2 :: tl →
    matchProjectGo es none = .error .multipleProjectFolders := by
  intro es
  induction es with
  | nil => intro e1 e2 tl h; simp at h
  | cons e0 rest ih =>
    intro e1 e2 tl h
    by_cases hP : isProjectEntry e0 = true
    · rw [List.filter_cons_of_pos hP] at h
      simp only [List.cons.injEq] at h
      obtain ⟨he, hrest⟩ := h
      subst he
      rw [matchProjectGo, if_pos hP]
      exact matchProjectGo_some_nonempty rest e0.name e2 tl hrest
    · have hP' : isProjectEntry e0 = false := by simpa using hP
      rw [List.filter_cons_of_neg (by simp [hP'])] at h
      rw [matchProjectGo, if_neg (by simp [hP'])]
      exact ih e1 e2 tl h

theorem projMatches_length (rd : RunDir) :
    (projMatches rd).length = (rd.listing.filter isProjectEntry).length := by
  simp [projMatches]

theorem mpd_none_of_single {rd : RunDir}
    (h : (projMatches rd).length = 1) :
    _match_project_dir rd.path rd.listing none =
      .ok (rd.path ++ "/" ++ inferredId rd, inferredId rd) := by
  rw [projMatches_length] at h
  obtain ⟨e, he⟩ := List.length_eq_one.mp h
  have hinf : inferredId rd = e.name := by
    simp [inferredId, projMatches, he]
  unfold _match_project_dir
  rw [matchProjectGo_one rd.listing e he, hinf]

theorem mpd_none_of_nonsingle {rd : RunDir}
    (h : (projMatches rd).length ≠ 1) :
    _match_project_dir rd.path rd.listing none =
      .error (if 2 ≤ (projMatches rd).length then Err.multipleProjectFolders
              else Err.noValidProject rd.path) := by
  rw [projMatches_length] at h ⊢
  match hf : rd.listing.filter isProjectEntry with
  | [] =>
    unfold _match_project_dir
    rw [matchProjectGo_zero rd.listing hf]
    simp
  | [e] => rw [hf] at h; simp at h
  | e1 :: e2 :: tl =>
    unfold _match_project_dir
    rw [matchProjectGo_many rd.listing e1 e2 tl hf]
    simp

theorem inspectLoop_first_bad : ∀ (folders : List RunDir) (rd : RunDir),
    firstNonSingle folders = some rd →
    inspectLoop folders none =
      .error (if 2 ≤ (projMatches rd).length then Err.multipleProjectFolders
              else Err.noValidProject rd.path) := by
  intro folders
  induction folders with
  | nil => intro rd h; simp [firstNonSingle] at h
  | cons r rest ih =>
    intro rd h
    by_cases hr : (projMatches r).length ≠ 1
    · have hfind : firstNonSingle (r :: rest) = some r := by
        simp [firstNonSingle, List.find?_cons, hr]
      rw [hfind] at h
      have hrd : r = rd := by simpa using h
      subst hrd
      rw [inspectLoop, mpd_none_of_nonsingle hr]
    · push_neg at hr
      have hfind : firstNonSingle (r :: rest) = firstNonSingle rest := by
        simp [firstNonSingle, List.find?_cons, hr]
      rw [hfind] at h
      rw [inspectLoop, mpd_none_of_single hr, ih rd h]

theorem inspectLoop_all_single : ∀ (folders : List RunDir),
    (∀ rd ∈ folders, (projMatches rd).length = 1) →
    inspectLoop folders none =
      .ok (folders.map (fun rd => rd.path ++ "/" ++ inferredId rd),
           folders.map inferredId) := by
  intro folders
  induction folders with
  | nil => intro _; rfl
  | cons r rest ih =>
    intro h
    rw [inspectLoop, mpd_none_of_single (h r (by simp))]
    rw [ih (fun rd hrd => h rd (by simp [hrd]))]
    simp

theorem map_ne_exists {f : RunDir → String} {l : List RunDir} :
    (∃ a ∈ l.map f, ∃ b ∈ l.map f, a ≠ b) ↔
      ∃ x ∈ l, ∃ y ∈ l, f x ≠ f y := by
  constructor
  · rintro ⟨a, ha, b, hb, hab⟩
    obtain ⟨x, hx, rfl⟩ := List.mem_map.mp ha
    obtain ⟨y, hy, rfl⟩ := List.mem_map.mp hb
    exact ⟨x, hx, y, hy, hab⟩
  · rintro ⟨x, hx, y, hy, hxy⟩
    exact ⟨f x, List.mem_map_of_mem f hx, f y, List.mem_map_of_mem f hy, hxy⟩

theorem inspect_dirs_of_loop_ok (folders : List RunDir) (dirs ids : List String)
    (h : inspectLoop folders none = .ok (dirs, ids)) :
    inspect_dirs folders none =
      (if (dedupKeepFirst ids).length > 1 then .error .multipleProjectIds
       else match dedupKeepFirst ids with
         | [p] => .ok (dirs, some p)
         | _ => .ok (dirs, none)) := by
  unfold inspect_dirs
  rw [h]
  dsimp only
  rw [foldl_setAdd_nil]

/-- C9 (amended): with no supplied project id, `inspect_dirs` examines the
run folders in argument order and the raised error is decided by the FIRST
folder that does not contain exactly one candidate project directory: more
than one candidate there raises the within-folder ambiguity error, zero
candidates raises the project-not-found error — even when a LATER folder
is ambiguous, which contradicts the original claim's "exactly when"; the
across-folder disagreement error is raised precisely when every folder has
exactly one candidate and two folders infer different project ids. -/
theorem C9_resolver_errors (folders : List RunDir) :
    (∀ rd, firstNonSingle folders = some rd →
      inspect_dirs folders none =
        .error (if 2 ≤ (projMatches rd).length then Err.multipleProjectFolders
                else Err.noValidProject rd.path)) ∧
    (firstNonSingle folders = none →
      (inspect_dirs folders none = .error .multipleProjectIds ↔
        ∃ a ∈ folders, ∃ b ∈ folders, inferredId a ≠ inferredId b)) := by
  constructor
  · intro rd h
    unfold inspect_dirs
    rw [inspectLoop_first_bad folders rd h]
  · intro h
    have hall : ∀ rd ∈ folders, (projMatches rd).length = 1 := by
      simpa [firstNonSingle, List.find?_eq_none] using h
    rw [inspect_dirs_of_loop_ok folders _ _ (inspectLoop_all_single folders hall)]
    by_cases h2 : 2 ≤ (dedupKeepFirst (folders.map inferredId)).length
    · rw [if_pos (by omega)]
      constructor
      · intro _
        exact map_ne_exists.mp (two_le_dedupKeepFirst_iff.mp h2)
      · intro _
        rfl
    · rw [if_neg (by omega)]
      constructor
      · intro hc
        exfalso
        match hd : dedupKeepFirst (folders.map inferredId) with
        | [] => rw [hd] at hc; simp at hc
        | [p] => rw [hd] at hc; simp at hc
        | a :: b :: t =>
          rw [hd] at h2
          simp at h2
      · intro hex
        exact absurd (two_le_dedupKeepFirst_iff.mpr (map_ne_exists.mpr hex)) h2

/-- C9 counterexample: the first run folder has zero candidate project
directories and the second has two; some folder has more than one
candidate, so the claim's "exactly when" requires `AmbiguousProjectError`,
but the code raises the project-not-found error for the first folder. -/
theorem C9_counterexample :
    inspect_dirs [rdNoProject, rdTwoProjects] none =
      .error (.noValidProject "/r0") ∧
    2 ≤ (projMatches rdTwoProjects).length := ⟨rfl, by decide⟩

theorem C9_witness :
    inspect_dirs [rdNoProject, rdTwoProjects] none =
      .error (.noValidProject "/r0") ∨
    inspect_dirs [rdNoProject, rdTwoProjects] none =
      .error Err.multipleProjectFolders :=
  Or.inl ((C9_resolver_errors [rdNoProject, rdTwoProjects]).1 rdNoProject rfl)

/-! ## Claim C2 — the machine field -/

theorem fmLoop_ok : ∀ (folders : List RunDir) (acc ms : List String),
    fmLoop folders acc = .ok ms →
    ms = List.foldl setAdd acc (folders.map machineModel) := by
  intro folders
  induction folders with
  | nil =>
    intro acc ms h
    simp only [fmLoop, Except.ok.injEq] at h
    simp [← h]
  | cons rd rest ih =>
    intro acc ms h
    rw [fmLoop] at h
    match hsp : pySplit '_' (basename rd.path) with
    | [] => rw [hsp] at h; simp at h
    | [c] => rw [hsp] at h; simp at h
    | a :: code :: tl =>
      rw [hsp] at h
      have hmm : machineModel rd = seqGet code := by
        simp [machineModel, hsp]
      rw [List.map_cons, List.foldl_cons, hmm]
      exact ih (setAdd acc (seqGet code)) ms h

theorem find_machine_ok {folders : List RunDir} {s : String}
    (h : find_machine folders = .ok s) :
    s = joinSep "|" (dedupKeepFirst (folders.map machineModel)) := by
  unfold find_machine at h
  cases hf : fmLoop folders [] with
  | error e => rw [hf] at h; simp at h
  | ok ms =>
    rw [hf] at h
    have hms := fmLoop_ok folders [] ms hf
    rw [foldl_setAdd_nil] at hms
    simp only [Except.ok.injEq] at h
    rw [← h, hms]

/-- C2 (amended): when no machine override is supplied, the `machine`
field of the output config is the pipe-join of a duplicate-free list that
contains the mapped model name of EVERY run folder — and a machine code
absent from the lookup table contributes the empty string, which is NOT
filtered out; so a mix of one known and one unknown code produces an
empty component in the join (the original claim's "distinct non-empty
names / no empty component" fails, see the counterexample). -/
theorem C2_machine_pipe_join (sd : List (String × SampleRec)) (opts : Dict)
    (args : Args) (pid fd : Option String) (cfg : Config)
    (hm : args.machine = none)
    (h : create_default_config sd opts args pid fd = .ok cfg) :
    ∃ E, cfg.machine = joinSep "|" E ∧ E.Nodup ∧
      (∀ m, m ∈ E ↔ ∃ rd ∈ args.runfolders, machineModel rd = m) := by
  simp only [create_default_config] at h
  cases hrg : find_read_geometry args.runfolders with
  | error e => rw [hrg] at h; simp at h
  | ok rg =>
    rw [hrg] at h
    cases hpm : pyOrMachine args.machine args.runfolders with
    | error e => rw [hpm] at h; simp at h
    | ok machine =>
      rw [hpm] at h
      simp only [Except.ok.injEq] at h
      subst h
      rw [hm] at hpm
      refine ⟨dedupKeepFirst (args.runfolders.map machineModel),
        find_machine_ok hpm, nodup_dedupKeepFirst _, ?_⟩
      intro m
      rw [mem_dedupKeepFirst]
      constructor
      · intro hmem
        obtain ⟨rd, hrd, rfl⟩ := List.mem_map.mp hmem
        exact ⟨rd, hrd, rfl⟩
      · rintro ⟨rd, hrd, rfl⟩
        exact List.mem_map_of_mem _ hrd

/-- C2 counterexample: one known (NB501038, "NextSeq 500") and one unknown
(ZZ999) machine code with no override; the claim requires machine
"NextSeq 500" with no empty pipe component, but the produced machine field
is "NextSeq 500|", whose components include the empty string. -/
theorem C2_counterexample :
    create_default_config [] [] argsMachineMix none none = .ok cfgMachineMix ∧
    cfgMachineMix.machine = "NextSeq 500|" ∧
    pySplit '|' cfgMachineMix.machine = ["NextSeq 500", ""] ∧
    cfgMachineMix.machine ≠ "NextSeq 500" := ⟨rfl, rfl, rfl, by decide⟩

theorem C2_witness :
    ∃ E, cfgMachineMix.machine = joinSep "|" E ∧ E.Nodup ∧
      (∀ m, m ∈ E ↔ ∃ rd ∈ argsMachineMix.runfolders, machineModel rd = m) :=
  C2_machine_pipe_join [] [] argsMachineMix none none cfgMachineMix rfl rfl

/-! ## Claim C7 — organism / libprepkit precedence -/

/-- C7: for the organism and libprepkit fields of the output config, an
explicit CLI override always wins; without an override the sample-sheet
custom option ("Organism" / "Libprep") is used; and when neither source
provides a value, `dictFind` is `none`, i.e. the key is absent from the
output (the `Option` fields of `Config` model key presence). -/
theorem C7_override_precedence (sd : List (String × SampleRec)) (opts : Dict)
    (args : Args) (pid fd : Option String) (cfg : Config)
    (h : create_default_config sd opts args pid fd = .ok cfg) :
    ((∀ o, args.organism = some o → cfg.organism = some (OptVal.str o)) ∧
     (args.organism = none → cfg.organism = dictFind opts "Organism")) ∧
    ((∀ k, args.libkit = some k → cfg.libprepkit = some (OptVal.str k)) ∧
     (args.libkit = none → cfg.libprepkit = dictFind opts "Libprep")) := by
  simp only [create_default_config] at h
  cases hrg : find_read_geometry args.runfolders with
  | error e => rw [hrg] at h; simp at h
  | ok rg =>
    rw [hrg] at h
    cases hpm : pyOrMachine args.machine args.runfolders with
    | error e => rw [hpm] at h; simp at h
    | ok machine =>
      rw [hpm] at h
      simp only [Except.ok.injEq] at h
      subst h
      refine ⟨⟨?_, ?_⟩, ?_, ?_⟩
      · intro o ho
        simp [ho]
      · intro ho
        simp [ho]
      · intro k hk
        simp [hk]
      · intro hk
        simp [hk]

theorem C7_witness :
    cfgOrganismMouse.organism = some (OptVal.str "mouse") ∧
    cfgOrganismMouse.libprepkit = dictFind optsOrganismHuman "Libprep" :=
  ⟨(C7_override_precedence [] optsOrganismHuman argsOrganismOverride none none
      cfgOrganismMouse rfl).1.1 "mouse" rfl,
   (C7_override_precedence [] optsOrganismHuman argsOrganismOverride none none
      cfgOrganismMouse rfl).2.2 rfl⟩

/-! ## Claim C6 — paired-end determination -/

theorem find_samples_lookup (project_dirs : List PDir) :
    ∀ (df : List String) (acc : List (String × SampleRec)) (sid : String),
    dictFind (df.foldl (fun acc sid => dictSet acc sid (mkSampleRec sid project_dirs)) acc)
        sid =
      if sid ∈ df then some (mkSampleRec sid project_dirs) else dictFind acc sid := by
  intro df
  induction df with
  | nil => intro acc sid; simp
  | cons x xs ih =>
    intro acc sid
    rw [List.foldl_cons, ih]
    by_cases hx : sid ∈ xs
    · simp [hx]
    · by_cases hsx : sid = x
      · subst hsx
        simp [hx, dictFind_dictSet_self]
      · simp [hx, hsx, dictFind_dictSet_ne _ _ _ _ (Ne.symm hsx)]

theorem foldl_append_flatten (g : PDir → List String) :
    ∀ (dirs : List PDir) (acc : List String),
    dirs.foldl (fun l pd => l ++ g pd) acc = acc ++ (dirs.map g).flatten := by
  intro dirs
  induction dirs with
  | nil => intro acc; simp
  | cons pd rest ih =>
    intro acc
    rw [List.foldl_cons, ih]
    simp

theorem length_insertSorted (le : String → String → Bool) (x : String) :
    ∀ l : List String, (insertSorted le x l).length = l.length + 1 := by
  intro l
  induction l with
  | nil => rfl
  | cons y ys ih =>
    rw [insertSorted]
    by_cases hle : le x y = true
    · rw [if_pos hle]
      simp
    · rw [if_neg hle]
      simp [ih]

theorem length_pySorted (l : List String) : (pySorted l).length = l.length := by
  induction l with
  | nil => rfl
  | cons x xs ih =>
    show (insertSorted pyStrLe x (pySorted xs)).length = xs.length + 1
    rw [length_insertSorted, ih]

theorem matchR2_nonempty_iff (sid : String) (pd : PDir) :
    (match_fastq sid pd true).2 ≠ [] ↔
      ∃ f ∈ pd.files, globMatch (fastqGlob sid "R2") (basename f).data = true := by
  have hlen : (match_fastq sid pd true).2.length =
      (pd.files.filter
        (fun f => globMatch (fastqGlob sid "R2") (basename f).data)).length := by
    simp [match_fastq, length_pySorted]
  constructor
  · intro hne
    have : (pd.files.filter
        (fun f => globMatch (fastqGlob sid "R2") (basename f).data)) ≠ [] := by
      intro hc
      apply hne
      rw [← List.length_eq_zero, hlen, hc]
      rfl
    obtain ⟨f, hf⟩ := List.exists_mem_of_ne_nil _ this
    have := List.mem_filter.mp hf
    exact ⟨f, this.1, this.2⟩
  · rintro ⟨f, hf, hm⟩
    intro hc
    have h0 : (match_fastq sid pd true).2.length = 0 := by rw [hc]; rfl
    rw [hlen] at h0
    rw [List.length_eq_zero] at h0
    have : f ∈ (pd.files.filter
        (fun f => globMatch (fastqGlob sid "R2") (basename f).data)) :=
      List.mem_filter.mpr ⟨hf, hm⟩
    rw [h0] at this
    simp at this

theorem sampleR2s_ne_nil_iff (sid : String) (dirs : List PDir) :
    sampleR2s sid dirs ≠ [] ↔
      ∃ pd ∈ dirs, ∃ f ∈ pd.files,
        globMatch (fastqGlob sid "R2") (basename f).data = true := by
  unfold sampleR2s
  rw [foldl_append_flatten (fun pd => (match_fastq sid pd true).2) dirs []]
  simp only [List.nil_append]
  constructor
  · intro hne
    have : ∃ l ∈ dirs.map (fun pd => (match_fastq sid pd true).2), l ≠ [] := by
      by_contra hall
      push_neg at hall
      exact hne (List.flatten_eq_nil_iff.mpr hall)
    obtain ⟨l, hl, hlne⟩ := this
    obtain ⟨pd, hpd, rfl⟩ := List.mem_map.mp hl
    obtain ⟨f, hf, hm⟩ := (matchR2_nonempty_iff sid pd).mp hlne
    exact ⟨pd, hpd, f, hf, hm⟩
  · rintro ⟨pd, hpd, f, hf, hm⟩
    intro hc
    rw [List.flatten_eq_nil_iff] at hc
    have hl : (match_fastq sid pd true).2 = [] :=
      hc _ (List.mem_map_of_mem _ hpd)
    exact (matchR2_nonempty_iff sid pd).mpr ⟨f, hf, hm⟩ hl

/-- C6: for a sample of the sample table, the stored `paired_end` flag is
1 exactly when at least one file whose basename matches the R2 glob
pattern exists in SOME searched project directory (matches are aggregated
over all project directories before the flag is computed), and 0
otherwise.  The embedding is a pure function of the modelled filesystem
state, so rerunning on the same state trivially yields the same flag. -/
theorem C6_paired_end_iff (df : List String) (dirs : List PDir) (sid : String)
    (hsid : sid ∈ df) :
    ∃ rec, dictFind (find_samples df dirs) sid = some rec ∧
      (rec.paired_end = 1 ↔ ∃ pd ∈ dirs, ∃ f ∈ pd.files,
        globMatch (fastqGlob sid "R2") (basename f).data = true) ∧
      (rec.paired_end = 0 ↔ ¬ ∃ pd ∈ dirs, ∃ f ∈ pd.files,
        globMatch (fastqGlob sid "R2") (basename f).data = true) := by
  refine ⟨mkSampleRec sid dirs, ?_, ?_⟩
  · unfold find_samples
    rw [find_samples_lookup dirs df [] sid]
    simp [hsid]
  · have hiff := sampleR2s_ne_nil_iff sid dirs
    by_cases hr : sampleR2s sid dirs = []
    · have hnex : ¬ ∃ pd ∈ dirs, ∃ f ∈ pd.files,
          globMatch (fastqGlob sid "R2") (basename f).data = true :=
        fun hex => (hiff.mpr hex) hr
      have h0 : (mkSampleRec sid dirs).paired_end = 0 := by
        simp [mkSampleRec, hr]
      exact ⟨by rw [h0]; simp [hnex], by rw [h0]; simp [hnex]⟩
    · have hex := hiff.mp hr
      have hlen : ((sampleR2s sid dirs).length == 0) = false := by
        simpa [List.length_eq_zero] using hr
      have h1 : (mkSampleRec sid dirs).paired_end = 1 := by
        simp [mkSampleRec, hlen]
      exact ⟨by rw [h1]; simp [hex], by rw [h1]; simp [hex]⟩

theorem C6_witness :
    ∃ rec, dictFind (find_samples ["S1"] [pdPaired]) "S1" = some rec ∧
      (rec.paired_end = 1 ↔ ∃ pd ∈ [pdPaired], ∃ f ∈ pd.files,
        globMatch (fastqGlob "S1" "R2") (basename f).data = true) ∧
      (rec.paired_end = 0 ↔ ¬ ∃ pd ∈ [pdPaired], ∃ f ∈ pd.files,
        globMatch (fastqGlob "S1" "R2") (basename f).data = true) :=
  C6_paired_end_iff ["S1"] [pdPaired] "S1" (by decide)

/-! ## Claim C8 — submission-form merge and audit -/

theorem check_warning_sheet_only {samples formIDs : List String} {s : String}
    (hs : s ∈ samples) (hns : s ∉ formIDs) :
    ∃ ids, Warning.inSheetNotInForm ids ∈ check_existence_of_samples samples formIDs ∧
      s ∈ ids := by
  have hsd : s ∈ dedupKeepFirst (samples.filter (fun x => decide (x ∉ formIDs))) :=
    mem_dedupKeepFirst.mpr (List.mem_filter.mpr ⟨hs, by simpa using hns⟩)
  refine ⟨dedupKeepFirst (samples.filter (fun x => decide (x ∉ formIDs))), ?_, hsd⟩
  simp only [check_existence_of_samples]
  split_ifs with h1 h2
  · rw [List.isEmpty_iff] at h1
    rw [h1] at hsd
    simp at hsd
  · rw [List.isEmpty_iff] at h1
    rw [h1] at hsd
    simp at hsd
  · simp
  · simp

theorem check_warning_form_only {samples formIDs : List String} {s : String}
    (hf : s ∈ formIDs) (hns : s ∉ samples) :
    ∃ ids, Warning.inFormNotInSheet ids ∈ check_existence_of_samples samples formIDs ∧
      s ∈ ids := by
  have hsd : s ∈ dedupKeepFirst (formIDs.filter (fun x => decide (x ∉ samples))) :=
    mem_dedupKeepFirst.mpr (List.mem_filter.mpr ⟨hf, by simpa using hns⟩)
  refine ⟨dedupKeepFirst (formIDs.filter (fun x => decide (x ∉ samples))), ?_, hsd⟩
  simp only [check_existence_of_samples]
  split_ifs with h1 h2 h3
  · rw [List.isEmpty_iff] at h2
    rw [h2] at hsd
    simp at hsd
  · simp
  · rw [List.isEmpty_iff] at h3
    rw [h3] at hsd
    simp at hsd
  · simp

/-- C8: merging with a submission form keeps exactly the samples whose id
occurs both among the FASTQ-matched sample-dict keys and in the merged
form table (inner join; sheet-only samples are silently dropped), and the
set-difference audit emits a warning naming every sheet-only sample and a
warning naming every form-only sample.  (The audit compares against the
customer-intake sheet of the form, as the source does on line 199; see C10
for the lab-sheet subtlety.) -/
theorem C8_inner_join_and_warnings (wb : Workbook) (sd : List (String × SampleRec)) :
    (∀ k, k ∈ (merge_samples_with_submission_form wb sd).1.map (fun kv => kv.1) ↔
      (k ∈ sd.map (fun kv => kv.1) ∧ k ∈ mergedFormIDs wb)) ∧
    (∀ s, s ∈ sd.map (fun kv => kv.1) → s ∉ wb.customerIDs →
      ∃ ids, Warning.inSheetNotInForm ids ∈
        (merge_samples_with_submission_form wb sd).2 ∧ s ∈ ids) ∧
    (∀ s, s ∈ wb.customerIDs → s ∉ sd.map (fun kv => kv.1) →
      ∃ ids, Warning.inFormNotInSheet ids ∈
        (merge_samples_with_submission_form wb sd).2 ∧ s ∈ ids) := by
  refine ⟨?_, ?_, ?_⟩
  · intro k
    simp only [merge_samples_with_submission_form]
    constructor
    · intro hk
      obtain ⟨kv, hkv, rfl⟩ := List.mem_map.mp hk
      have hm := List.mem_filter.mp hkv
      exact ⟨List.mem_map_of_mem _ hm.1, by simpa using hm.2⟩
    · rintro ⟨hk1, hk2⟩
      obtain ⟨kv, hkv, rfl⟩ := List.mem_map.mp hk1
      exact List.mem_map_of_mem _ (List.mem_filter.mpr ⟨hkv, by simpa using hk2⟩)
  · intro s hs hns
    exact check_warning_sheet_only hs hns
  · intro s hs hns
    exact check_warning_form_only hs hns

theorem C8_witness :
    ("B" ∈ (merge_samples_with_submission_form wbSheetBC sdAB).1.map (fun kv => kv.1) ↔
      ("B" ∈ sdAB.map (fun kv => kv.1) ∧ "B" ∈ mergedFormIDs wbSheetBC)) ∧
    (∃ ids, Warning.inSheetNotInForm ids ∈
      (merge_samples_with_submission_form wbSheetBC sdAB).2 ∧ "A" ∈ ids) ∧
    (∃ ids, Warning.inFormNotInSheet ids ∈
      (merge_samples_with_submission_form wbSheetBC sdAB).2 ∧ "C" ∈ ids) :=
  ⟨(C8_inner_join_and_warnings wbSheetBC sdAB).1 "B",
   (C8_inner_join_and_warnings wbSheetBC sdAB).2.1 "A" (by decide) (by decide),
   (C8_inner_join_and_warnings wbSheetBC sdAB).2.2 "C" (by decide) (by decide)⟩

/-! ## Claim C10 — samples dropped by the lab sheet without a warning -/

/-- C10: the set-difference audit compares the sample-dict keys only
against the customer-intake sheet and runs BEFORE the inner join with the
lab-QC sheet, so a sample present in both the sample sheet and the
customer sheet but absent from a non-empty lab sheet is silently dropped:
it is not in the merged output and no emitted warning names it. -/
theorem C10_silent_lab_drop (wb : Workbook) (sd : List (String × SampleRec))
    (s : String) (hs : s ∈ sd.map (fun kv => kv.1)) (hc : s ∈ wb.customerIDs)
    (hlab : wb.labIDs ≠ []) (hnl : s ∉ wb.labIDs) :
    s ∉ (merge_samples_with_submission_form wb sd).1.map (fun kv => kv.1) ∧
    ∀ w ∈ (merge_samples_with_submission_form wb sd).2, s ∉ warningNames w := by
  constructor
  · intro hmem
    simp only [merge_samples_with_submission_form] at hmem
    obtain ⟨kv, hkv, rfl⟩ := List.mem_map.mp hmem
    have hm := List.mem_filter.mp hkv
    have hmf : kv.1 ∈ mergedFormIDs wb := by simpa using hm.2
    unfold mergedFormIDs at hmf
    rw [if_neg (by simpa [List.isEmpty_iff] using hlab)] at hmf
    have := List.mem_filter.mp hmf
    exact hnl (by simpa using this.2)
  · intro w hw
    simp only [merge_samples_with_submission_form, check_existence_of_samples,
      List.mem_append] at hw
    rcases hw with hw | hw
    · have hwd : w = Warning.inSheetNotInForm (dedupKeepFirst
          ((sd.map (fun kv => kv.1)).filter
            (fun x => decide (x ∉ wb.customerIDs)))) := by
        by_cases hd : (dedupKeepFirst ((sd.map (fun kv => kv.1)).filter
            (fun x => decide (x ∉ wb.customerIDs)))).isEmpty = true
        · rw [if_pos (by simpa using hd)] at hw
          simp at hw
        · rw [if_neg (by simpa using hd)] at hw
          simpa using hw
      subst hwd
      intro hmem
      simp only [warningNames] at hmem
      have := List.mem_filter.mp (mem_dedupKeepFirst.mp hmem)
      exact (by simpa using this.2 : ¬ _) hc
    · have hwd : w = Warning.inFormNotInSheet (dedupKeepFirst
          (wb.customerIDs.filter
            (fun x => decide (x ∉ sd.map (fun kv => kv.1))))) := by
        by_cases hd : (dedupKeepFirst (wb.customerIDs.filter
            (fun x => decide (x ∉ sd.map (fun kv => kv.1))))).isEmpty = true
        · rw [if_pos (by simpa using hd)] at hw
          simp at hw
        · rw [if_neg (by simpa using hd)] at hw
          simpa using hw
      subst hwd
      intro hmem
      simp only [warningNames] at hmem
      have := List.mem_filter.mp (mem_dedupKeepFirst.mp hmem)
      exact (by simpa using this.2 : ¬ _) hs

theorem C10_witness :
    "B" ∉ (merge_samples_with_submission_form wbLabC sdB).1.map (fun kv => kv.1) ∧
    ∀ w ∈ (merge_samples_with_submission_form wbLabC sdB).2, "B" ∉ warningNames w :=
  C10_silent_lab_drop wbLabC sdB "B" (by decide) (by decide) (by decide) (by decide)

/-! ## Claim C4 — output-file truncation on fatal errors -/

/-- C4 (amended): `--output` is opened with `argparse.FileType('w')`, so
argument parsing itself creates the output file, truncating a pre-existing
file to empty; when the pipeline then fails with any fatal error, no
config content has been written, but the previous contents of the file are
already destroyed — the file exists and is empty, whatever it held
before. -/
theorem C4_truncated_before_failure (args : Args) (prev : Option String) (e : Err)
    (h : mainPipeline args = .error e) :
    runMain args prev = (some "", .error e) := by
  simp only [runMain]
  rw [h]

/-- C4 counterexample: a run that fails after argument parsing (no project
directory in the run folder) leaves the pre-existing output file truncated
to empty — its contents are NOT kept, contradicting the claim. -/
theorem C4_counterexample :
    (runMain argsFailing (some "old contents")).1 = some "" ∧
    (some "" : Option String) ≠ some "old contents" ∧
    (runMain argsFailing (some "old contents")).2 =
      .error (.noValidProject "/r0") := ⟨rfl, by decide, rfl⟩

theorem C4_witness :
    runMain argsFailing (some "previous config") =
      (some "", .error (.noValidProject "/r0")) :=
  C4_truncated_before_failure argsFailing (some "previous config")
    (.noValidProject "/r0") rfl
